import Mathlib

/-!
Verification of the `opcua-client` repository (`src/opcua-client.py`).

The program is a one-shot CLI tool: it validates credentials, connects to an
OPC UA server, performs one read or one type-converted write (with read-back
verification), and disconnects in a `finally` block.

We embed it shallowly as a trace semantics: a `ServerEnv` supplies the
outcome of every server interaction (connect, read data type, read value,
write value), and `main` produces the list of observable events — network
requests, the disconnect, and log lines — exactly in the order the Python
code performs them.  Python exceptions are modelled by `Except PyExc`;
`except ValueError` vs `except Exception` handler selection is modelled by
the two constructors of `PyExc`.
-/

namespace OpcuaClient

/-- The `asyncua.ua.VariantType` enumeration (OPC UA built-in data types),
as used by `node.read_data_type_as_variant_type()`. -/
inductive VariantType
  | Null
  | Boolean
  | SByte
  | Byte
  | Int16
  | UInt16
  | Int32
  | UInt32
  | Int64
  | UInt64
  | Float
  | Double
  | String
  | DateTime
  | Guid
  | ByteString
  | XmlElement
  | NodeId
  | ExpandedNodeId
  | StatusCode
  | QualifiedName
  | LocalizedText
  | ExtensionObject
  | DataValue
  | Variant
  | DiagnosticInfo
  deriving DecidableEq, Repr

/-- Rendering of a `VariantType` member as Python f-strings render it
(`f"{data_type}"` on an enum member yields `VariantType.<name>`). -/
def vtName : VariantType → String
  | .Null => "VariantType.Null"
  | .Boolean => "VariantType.Boolean"
  | .SByte => "VariantType.SByte"
  | .Byte => "VariantType.Byte"
  | .Int16 => "VariantType.Int16"
  | .UInt16 => "VariantType.UInt16"
  | .Int32 => "VariantType.Int32"
  | .UInt32 => "VariantType.UInt32"
  | .Int64 => "VariantType.Int64"
  | .UInt64 => "VariantType.UInt64"
  | .Float => "VariantType.Float"
  | .Double => "VariantType.Double"
  | .String => "VariantType.String"
  | .DateTime => "VariantType.DateTime"
  | .Guid => "VariantType.Guid"
  | .ByteString => "VariantType.ByteString"
  | .XmlElement => "VariantType.XmlElement"
  | .NodeId => "VariantType.NodeId"
  | .ExpandedNodeId => "VariantType.ExpandedNodeId"
  | .StatusCode => "VariantType.StatusCode"
  | .QualifiedName => "VariantType.QualifiedName"
  | .LocalizedText => "VariantType.LocalizedText"
  | .ExtensionObject => "VariantType.ExtensionObject"
  | .DataValue => "VariantType.DataValue"
  | .Variant => "VariantType.Variant"
  | .DiagnosticInfo => "VariantType.DiagnosticInfo"

/-- Python runtime values that flow through the client: results of `int()`,
`float()`, `bool()`, `str()` conversions and of `node.read_value()`.
Python floats are modelled exactly by rationals (the claims under
verification never depend on binary rounding). -/
inductive PyValue
  | int (i : Int)
  | float (q : Rat)
  | bool (b : Bool)
  | str (s : String)
  deriving DecidableEq, Repr

/-- Rendering model of Python `str()` / f-string interpolation on the
values above. -/
def pyStr : PyValue → String
  | .int i => toString i
  | .float q => toString q
  | .bool b => if b then "True" else "False"
  | .str s => s

/-- Numeric view used by Python `==`: `bool` is a subtype of `int` in
Python, and numeric types compare by value across kinds. -/
def PyValue.numVal : PyValue → Option Rat
  | .int i => some (i : Rat)
  | .float q => some q
  | .bool b => some (if b then 1 else 0)
  | .str _ => none

/-- Model of Python `==` on the value domain: numeric kinds compare by
numeric value, strings compare as strings, numeric never equals string. -/
def pyEq (a b : PyValue) : Bool :=
  match a.numVal, b.numVal with
  | some x, some y => x == y
  | _, _ =>
    match a, b with
    | .str s, .str t => s == t
    | _, _ => false

/-- Accumulate a base-10 digit string into a natural number; `none` on the
first non-digit character. -/
def parseDigitsAux : List Char → Nat → Option Nat
  | [], acc => some acc
  | c :: cs, acc =>
    if c.isDigit then parseDigitsAux cs (acc * 10 + (c.toNat - 48)) else none

/-- A nonempty all-digit character list as a natural number. -/
def parseDigits (cs : List Char) : Option Nat :=
  if cs.isEmpty then none else parseDigitsAux cs 0

/-- Surrounding whitespace removal (what `int()`/`float()` apply to their
string argument before parsing). -/
def stripChars (cs : List Char) : List Char :=
  ((cs.dropWhile Char.isWhitespace).reverse.dropWhile Char.isWhitespace).reverse

/-- Model of Python `int(s)` for `str` arguments, on the fragment the tool
exercises: optional surrounding whitespace, an optional sign, then a
nonempty run of base-10 digits; anything else raises `ValueError`
(modelled as `none`).  Digit-group underscores are outside the modelled
fragment. -/
def pyParseInt (s : String) : Option Int :=
  match stripChars s.toList with
  | '-' :: rest => (parseDigits rest).map (fun n => -(n : Int))
  | '+' :: rest => (parseDigits rest).map (fun n => (n : Int))
  | cs => (parseDigits cs).map (fun n => (n : Int))

/-- Value of an all-digit fractional part (the characters after the decimal
point), as an exact rational. -/
def fracVal (cs : List Char) : Rat :=
  ((cs.foldl (fun acc c => acc * 10 + (c.toNat - 48)) 0 : Nat) : Rat) /
    ((10 : Rat) ^ cs.length)

/-- Unsigned decimal literal `digits [. digits]` (either side of the point
may be empty, not both), as an exact rational. -/
def parseUnsignedDec (cs : List Char) : Option Rat :=
  match cs.span (fun c => c ≠ '.') with
  | (intPart, []) => (parseDigits intPart).map (fun n => (n : Rat))
  | (intPart, _dot :: fracPart) =>
    if intPart.isEmpty && fracPart.isEmpty then none
    else if fracPart.any (fun c => ¬ c.isDigit) then none
    else if intPart.isEmpty then some (fracVal fracPart)
    else (parseDigits intPart).map (fun n => (n : Rat) + fracVal fracPart)

/-- Model of Python `float(s)` for `str` arguments, on the fragment the
tool exercises: optional surrounding whitespace, optional sign, decimal
digits with an optional fractional part; the result is the exact rational
value.  Exponent notation and `inf`/`nan` are outside the modelled
fragment; unparsable input raises `ValueError` (modelled as `none`). -/
def pyParseFloat (s : String) : Option Rat :=
  match stripChars s.toList with
  | '-' :: rest => (parseUnsignedDec rest).map (fun q => -q)
  | '+' :: rest => parseUnsignedDec rest
  | cs => parseUnsignedDec cs

/-- A Python exception, split by which `except` clause of the inner
handler chain (lines 66-69 of the source) catches it. -/
inductive PyExc
  | valueError (msg : String)
  | otherExc (msg : String)
  deriving DecidableEq, Repr

/-- The message text of an exception (what `f"{e}"` interpolates). -/
def PyExc.msg : PyExc → String
  | .valueError m => m
  | .otherExc m => m

/-- The behaviour of the OPC UA server (and transport) for one invocation:
the outcome of each awaited client-library call.  `Except.error` means the
call raises. -/
structure ServerEnv where
  connectResult : Except PyExc Unit
  readDataType : String → Except PyExc VariantType
  readValue : String → Except PyExc PyValue
  writeValue : String → PyValue → Except PyExc Unit

/-- Observable events of one invocation, in program order: server requests,
the session teardown, and log lines. -/
inductive Event
  | connectAttempt
  | getNode (nodeId : String)
  | readDataTypeReq (nodeId : String)
  | readValueReq (nodeId : String)
  | writeValueReq (nodeId : String) (v : PyValue)
  | disconnect
  | logInfo (msg : String)
  | logError (msg : String)
  | logWarning (msg : String)
  deriving DecidableEq, Repr

/-- Body of `convert_value_to_node_type` after the awaited
`read_data_type_as_variant_type()` call (source lines 16-25): dispatch on
the reported data type and parse the raw string, propagating an exception
from the type query. -/
def convResult : Except PyExc VariantType → String → Except PyExc PyValue
  | .error e, _ => .error e
  | .ok dt, value =>
    if dt = .Int16 ∨ dt = .Int32 ∨ dt = .Int64 then
      match pyParseInt value with
      | some i => .ok (.int i)
      | none => .error (.valueError ("invalid literal for int with base 10: " ++ value))
    else if dt = .Float ∨ dt = .Double then
      match pyParseFloat value with
      | some q => .ok (.float q)
      | none => .error (.valueError ("could not convert string to float: " ++ value))
    else if dt = .Boolean then
      match pyParseInt value with
      | some i => .ok (.bool (i != 0))
      | none => .error (.valueError ("invalid literal for int with base 10: " ++ value))
    else if dt = .String then
      .ok (.str value)
    else
      .error (.valueError ("Unsupported data type: " ++ vtName dt))

/-- Embedding of `convert_value_to_node_type` (source lines 11-25): the
server events it issues (always exactly the data-type query) paired with
its result — the converted value, or the `ValueError` it raises. -/
def convert_value_to_node_type (env : ServerEnv) (nodeId : String) (value : String) :
    List Event × Except PyExc PyValue :=
  ([Event.readDataTypeReq nodeId], convResult (env.readDataType nodeId) value)

/-- The log line emitted by the inner `except` chain (source lines 66-69):
`except ValueError` logs a conversion error, `except Exception` logs a
write error. -/
def innerHandlerLog : PyExc → Event
  | .valueError m => Event.logError ("Value conversion error: " ++ m)
  | .otherExc m => Event.logError ("An error occurred while writing to the node: " ++ m)

/-- The write path from the inner `try` (source lines 54-69): convert the
raw value, write it, read it back and compare; every exception raised
inside is caught by the inner handler chain and logged. -/
def writeInner (env : ServerEnv) (node_id value : String) : List Event :=
  (convert_value_to_node_type env node_id value).1 ++
  match (convert_value_to_node_type env node_id value).2 with
  | .error e => [innerHandlerLog e]
  | .ok cv =>
    [Event.logInfo ("Attempting to write value " ++ pyStr cv ++ " to node " ++ node_id),
     Event.writeValueReq node_id cv] ++
    match env.writeValue node_id cv with
    | .error e => [innerHandlerLog e]
    | .ok _ =>
      [Event.logInfo ("Updated value of node " ++ node_id ++ " to " ++ pyStr cv),
       Event.readValueReq node_id] ++
      match env.readValue node_id with
      | .error e => [innerHandlerLog e]
      | .ok nv =>
        if pyEq nv cv then
          [Event.logInfo ("Verified: Value of node " ++ node_id ++ " is now " ++ pyStr nv)]
        else
          [Event.logWarning ("Verification failed: Expected " ++ pyStr cv ++
            ", but got " ++ pyStr nv)]

/-- The `try` body (source lines 42-71): connect, then dispatch on the
operation.  Returns the events performed and the exception, if any, that
escapes to the outer `except` handler. -/
def tryBody (env : ServerEnv) (operation node_id : String) (value : Option String) :
    List Event × Option PyExc :=
  match env.connectResult with
  | .error e => ([Event.connectAttempt], some e)
  | .ok _ =>
    let pre := [Event.connectAttempt, Event.logInfo "Connected to OPC UA server"]
    if operation = "read" then
      match env.readValue node_id with
      | .error e => (pre ++ [Event.getNode node_id, Event.readValueReq node_id], some e)
      | .ok v =>
        (pre ++ [Event.getNode node_id, Event.readValueReq node_id,
          Event.logInfo ("Value of node " ++ node_id ++ ": " ++ pyStr v)], none)
    else if operation = "write" then
      match value with
      | none => (pre ++ [Event.logError "Value must be provided for write operation"], none)
      | some v => (pre ++ Event.getNode node_id :: writeInner env node_id v, none)
    else
      (pre ++ [Event.logError "Invalid operation. Please enter read or write."], none)

/-- The events of the outer `except Exception` handler (source lines
73-74). -/
def outerHandlerEvents : Option PyExc → List Event
  | some e => [Event.logError ("An error occurred: " ++ e.msg)]
  | none => []

/-- The `try`/`except`/`finally` region of `main` (source lines 41-77):
the `try` body, the outer handler if an exception escaped, then the
unconditional `finally` teardown. -/
def mainTry (env : ServerEnv) (operation node_id : String) (value : Option String) :
    List Event :=
  (tryBody env operation node_id value).1 ++
  outerHandlerEvents (tryBody env operation node_id value).2 ++
  [Event.disconnect, Event.logInfo "Disconnected from OPC UA server"]

/-- Python truthiness of an optional string argument (`argparse` leaves an
unsupplied flag as `None`; both `None` and `""` are falsy). -/
def truthy : Option String → Bool
  | some s => s != ""
  | none => false

/-- Embedding of `main` (source lines 27-77): credential validation with
early returns (lines 30-39), then the connect/operate/disconnect region.
The trace is the list of observable events of the whole invocation. -/
def main (env : ServerEnv) (auth_type : String) (username password : Option String)
    (operation node_id : String) (value : Option String) : List Event :=
  if auth_type = "userpass" then
    if truthy username && truthy password then
      mainTry env operation node_id value
    else
      [Event.logError "Username and password must be provided for userpass authentication"]
  else if auth_type = "anonymous" then
    mainTry env operation node_id value
  else
    [Event.logError "Invalid authentication type. Exiting."]

/-- The connection URL construction of the `__main__` block (source line
92), literally the f-string `opc.tcp://{hostname}:{port}{path}`. -/
def opc_ua_server_url (hostname : String) (port : Int) (path : String) : String :=
  s!"opc.tcp://{hostname}:{port}{path}"

/-- The URL as the spec words it: the plain string concatenation
`"opc.tcp://" + hostname + ":" + port + path`. -/
def urlSpec (hostname : String) (port : Int) (path : String) : String :=
  "opc.tcp://" ++ hostname ++ ":" ++ toString port ++ path

/-- Is this event the session teardown? -/
def isDisconnect : Event → Bool
  | .disconnect => true
  | _ => false

/-- Number of disconnect events in a trace. -/
def countDisconnect (tr : List Event) : Nat :=
  tr.countP isDisconnect

/-- Is this event a server write request (`node.write_value`)? -/
def isServerWriteReq : Event → Bool
  | .writeValueReq _ _ => true
  | _ => false

/-- Is this event the data-type query issued by the value-conversion
helper (`read_data_type_as_variant_type`)? -/
def isDataTypeReq : Event → Bool
  | .readDataTypeReq _ => true
  | _ => false

/-- Is this event a node operation against the server (as opposed to a
log line, the connect, or the disconnect)? -/
def isNodeOp : Event → Bool
  | .getNode _ => true
  | .readDataTypeReq _ => true
  | .readValueReq _ => true
  | .writeValueReq _ _ => true
  | _ => false

/-- The data types `convert_value_to_node_type` supports: the integer
family, the floating family, boolean and string. -/
def supported (dt : VariantType) : Bool :=
  dt == .Int16 || dt == .Int32 || dt == .Int64 ||
  dt == .Float || dt == .Double || dt == .Boolean || dt == .String

/-- The credential validation of source lines 30-39 passes (no early
return): anonymous auth, or userpass with both credentials truthy. -/
def authOk (auth_type : String) (username password : Option String) : Prop :=
  auth_type = "anonymous" ∨
    (auth_type = "userpass" ∧ truthy username = true ∧ truthy password = true)

/-- Is this event an error-log line from the `except ValueError` handler,
i.e. a surfaced conversion error? -/
def isConvErrorLog : Event → Bool
  | .logError m => m.startsWith "Value conversion error: "
  | _ => false

/-- The integer family of `convert_value_to_node_type` (source line 16). -/
def intFamily (dt : VariantType) : Bool :=
  dt == .Int16 || dt == .Int32 || dt == .Int64

/-- The floating family of `convert_value_to_node_type` (source line 18). -/
def floatFamily (dt : VariantType) : Bool :=
  dt == .Float || dt == .Double

/-- A concrete well-behaved server: connection succeeds, every node
reports `Int32` and holds the integer 42, writes succeed. -/
def cEnv : ServerEnv where
  connectResult := .ok ()
  readDataType := fun _ => .ok .Int32
  readValue := fun _ => .ok (.int 42)
  writeValue := fun _ _ => .ok ()

/-- A concrete server whose nodes report the unsupported type
`DateTime`. -/
def uEnv : ServerEnv where
  connectResult := .ok ()
  readDataType := fun _ => .ok .DateTime
  readValue := fun _ => .ok (.int 42)
  writeValue := fun _ _ => .ok ()

/-- A concrete server whose nodes report `Boolean` and hold `True`. -/
def bEnv : ServerEnv where
  connectResult := .ok ()
  readDataType := fun _ => .ok .Boolean
  readValue := fun _ => .ok (.bool true)
  writeValue := fun _ _ => .ok ()

/-- Some conversion-error line (from the `except ValueError` handler,
source lines 66-67) was logged in the trace. -/
def convErrorLogged (tr : List Event) : Prop :=
  ∃ m, Event.logError ("Value conversion error: " ++ m) ∈ tr

/-! Supporting lemmas -/

theorem writeInner_no_disconnect (env : ServerEnv) (n v : String) :
    countDisconnect (writeInner env n v) = 0 := by
  unfold writeInner convert_value_to_node_type
  rcases h : convResult (env.readDataType n) v with e | cv
  · cases e <;> simp [h, countDisconnect, innerHandlerLog, isDisconnect]
  · rcases hw : env.writeValue n cv with e | u
    · cases e <;> simp [h, hw, countDisconnect, innerHandlerLog, isDisconnect]
    · rcases hr : env.readValue n with e | nv
      · cases e <;> simp [h, hw, hr, countDisconnect, innerHandlerLog, isDisconnect]
      · cases hpq : pyEq nv cv <;>
          simp [h, hw, hr, hpq, countDisconnect, innerHandlerLog, isDisconnect]

theorem tryBody_no_disconnect (env : ServerEnv) (op n : String) (v : Option String) :
    countDisconnect (tryBody env op n v).1 = 0 := by
  unfold tryBody
  rcases hc : env.connectResult with e | u
  · simp [countDisconnect, isDisconnect]
  · by_cases hr : op = "read"
    · rcases hv : env.readValue n with e | w <;>
        simp [hr, hv, countDisconnect, isDisconnect]
    · by_cases hw : op = "write"
      · rcases v with _ | v
        · simp [hr, hw, countDisconnect, isDisconnect]
        · have h0 := writeInner_no_disconnect env n v
          rw [countDisconnect, List.countP_eq_zero] at h0
          simp [hr, hw, countDisconnect, isDisconnect, List.countP_append]
          intro a ha
          simpa [isDisconnect] using h0 a ha
      · simp [hr, hw, countDisconnect, isDisconnect]

theorem mainTry_one_disconnect (env : ServerEnv) (op n : String) (v : Option String) :
    countDisconnect (mainTry env op n v) = 1 := by
  have h0 := tryBody_no_disconnect env op n v
  rw [countDisconnect, List.countP_eq_zero] at h0
  unfold mainTry
  rcases h : (tryBody env op n v).2 with _ | e <;>
    simp [h, countDisconnect, List.countP_append, outerHandlerEvents, isDisconnect] <;>
    (intro a ha; simpa [isDisconnect] using h0 a ha)

theorem main_eq_mainTry (env : ServerEnv) (auth_type : String)
    (username password : Option String) (operation node_id : String) (value : Option String)
    (ha : authOk auth_type username password) :
    main env auth_type username password operation node_id value =
      mainTry env operation node_id value := by
  rcases ha with h | ⟨h, hu, hp⟩
  · subst h
    simp [main]
  · subst h
    simp [main, hu, hp]

theorem mainTry_conv_error (env : ServerEnv) (node_id v m : String)
    (hc : env.connectResult = .ok ())
    (hconv : convResult (env.readDataType node_id) v = .error (.valueError m)) :
    mainTry env "write" node_id (some v) =
      [Event.connectAttempt, Event.logInfo "Connected to OPC UA server",
       Event.getNode node_id, Event.readDataTypeReq node_id,
       Event.logError ("Value conversion error: " ++ m),
       Event.disconnect, Event.logInfo "Disconnected from OPC UA server"] := by
  simp [mainTry, tryBody, writeInner, convert_value_to_node_type, hconv, hc,
    outerHandlerEvents, innerHandlerLog]

/-! Claims -/

/-- Claim C1, counterexample: the claim says the session is disconnected
exactly once on every exit path, including configuration errors — but an
invocation with an invalid auth type returns from `main` before the
`try`/`finally` block (source lines 37-39), so its trace is a single error
log with zero disconnect events. -/
theorem C1_counterexample :
    main cEnv "basic" none none "read" "ns=2;i=2003" none =
      [Event.logError "Invalid authentication type. Exiting."] ∧
    countDisconnect (main cEnv "basic" none none "read" "ns=2;i=2003" none) = 0 := by
  decide

/-- Claim C1, amended: for every invocation that passes credential
validation (anonymous, or userpass with both credentials supplied), the
client session is disconnected exactly once, regardless of whether the
operation succeeded, failed with a domain error, or failed with a
connection error.  Invocations rejected by credential validation exit
before the connection scope and perform no disconnect. -/
theorem C1_disconnect_once_when_validated (env : ServerEnv) (auth_type : String)
    (username password : Option String) (operation node_id : String) (value : Option String)
    (h : authOk auth_type username password) :
    countDisconnect (main env auth_type username password operation node_id value) = 1 := by
  rw [main_eq_mainTry env auth_type username password operation node_id value h]
  exact mainTry_one_disconnect env operation node_id value

/-- Claim C1, witness: the amended theorem at a concrete anonymous read
invocation. -/
theorem C1_witness :
    countDisconnect (main cEnv "anonymous" none none "read" "ns=2;i=2003" none) = 1 :=
  C1_disconnect_once_when_validated cEnv "anonymous" none none "read" "ns=2;i=2003" none
    (Or.inl rfl)

/-- Claim C2, counterexample: the claim says a write invocation with no
raw value fails before any connection attempt — but the trace of such an
invocation begins with the connection attempt (and the connected log
line); the missing-value error is only logged afterwards (the check sits
at source lines 50-52, inside the `try` block, after `connect()` at line
42). -/
theorem C2_counterexample :
    main cEnv "anonymous" none none "write" "ns=2;i=2003" none =
      [Event.connectAttempt, Event.logInfo "Connected to OPC UA server",
       Event.logError "Value must be provided for write operation",
       Event.disconnect, Event.logInfo "Disconnected from OPC UA server"] := by
  decide

/-- Claim C2, amended: for every invocation with operation write and no
raw value supplied (credentials valid, connection succeeding), the
operation fails with the missing-value configuration error — but only
after the connection attempt; no node request of any kind is issued, and
the session is then disconnected. -/
theorem C2_missing_value_fails_after_connect (env : ServerEnv) (auth_type : String)
    (username password : Option String) (node_id : String)
    (ha : authOk auth_type username password) (hc : env.connectResult = .ok ()) :
    main env auth_type username password "write" node_id none =
      [Event.connectAttempt, Event.logInfo "Connected to OPC UA server",
       Event.logError "Value must be provided for write operation",
       Event.disconnect, Event.logInfo "Disconnected from OPC UA server"] := by
  rw [main_eq_mainTry env auth_type username password "write" node_id none ha]
  simp [mainTry, tryBody, hc, outerHandlerEvents]

/-- Claim C2, witness: the amended theorem at a concrete userpass write
invocation without a value. -/
theorem C2_witness :
    main cEnv "userpass" (some "alice") (some "secret") "write" "n" none =
      [Event.connectAttempt, Event.logInfo "Connected to OPC UA server",
       Event.logError "Value must be provided for write operation",
       Event.disconnect, Event.logInfo "Disconnected from OPC UA server"] :=
  C2_missing_value_fails_after_connect cEnv "userpass" (some "alice") (some "secret") "n"
    (Or.inr ⟨rfl, rfl, rfl⟩) rfl

/-- Claim C3, counterexample: the claim says an invocation whose operation
is neither read nor write fails fast before any network activity — but the
trace of such an invocation begins with the connection attempt; the
invalid-operation error is only logged afterwards (the check is the final
`else` of the dispatch at source lines 70-71, after `connect()`). -/
theorem C3_counterexample :
    main cEnv "anonymous" none none "frobnicate" "ns=2;i=2003" none =
      [Event.connectAttempt, Event.logInfo "Connected to OPC UA server",
       Event.logError "Invalid operation. Please enter read or write.",
       Event.disconnect, Event.logInfo "Disconnected from OPC UA server"] := by
  decide

/-- Claim C3, amended: for every invocation whose operation kind is
neither read nor write (credentials valid), no node operation is ever
issued — no get-node, no read, no write, no data-type query — and, when
the connection succeeds, the invocation logs the invalid-operation error
right after connecting and then disconnects. -/
theorem C3_invalid_operation_fails_after_connect (env : ServerEnv) (auth_type : String)
    (username password : Option String) (operation node_id : String) (value : Option String)
    (ha : authOk auth_type username password) (hr : operation ≠ "read")
    (hw : operation ≠ "write") :
    ((main env auth_type username password operation node_id value).all
        (fun e => !isNodeOp e)) = true ∧
    (env.connectResult = .ok () →
      main env auth_type username password operation node_id value =
        [Event.connectAttempt, Event.logInfo "Connected to OPC UA server",
         Event.logError "Invalid operation. Please enter read or write.",
         Event.disconnect, Event.logInfo "Disconnected from OPC UA server"]) := by
  rw [main_eq_mainTry env auth_type username password operation node_id value ha]
  constructor
  · rcases hcc : env.connectResult with e | u <;>
      simp [mainTry, tryBody, hcc, hr, hw, outerHandlerEvents, isNodeOp]
  · intro hc
    simp [mainTry, tryBody, hc, hr, hw, outerHandlerEvents]

/-- Claim C3, witness: the amended theorem at a concrete invocation with
an unknown operation kind. -/
theorem C3_witness :
    ((main cEnv "anonymous" none none "frobnicate" "n" none).all
        (fun e => !isNodeOp e)) = true ∧
    (cEnv.connectResult = .ok () →
      main cEnv "anonymous" none none "frobnicate" "n" none =
        [Event.connectAttempt, Event.logInfo "Connected to OPC UA server",
         Event.logError "Invalid operation. Please enter read or write.",
         Event.disconnect, Event.logInfo "Disconnected from OPC UA server"]) :=
  C3_invalid_operation_fails_after_connect cEnv "anonymous" none none "frobnicate" "n" none
    (Or.inl rfl) (by decide) (by decide)

/-- Claim C4: for every write invocation whose target node reports a data
type outside the supported set (integer family, floating family, boolean,
string), the write path fails with the unsupported-type error carrying the
reported type, and the server write operation is never called. -/
theorem C4_unsupported_type_never_writes (env : ServerEnv) (auth_type : String)
    (username password : Option String) (node_id v : String) (dt : VariantType)
    (ha : authOk auth_type username password) (hc : env.connectResult = .ok ())
    (hdt : env.readDataType node_id = .ok dt) (hs : supported dt = false) :
    Event.logError ("Value conversion error: " ++ ("Unsupported data type: " ++ vtName dt)) ∈
        main env auth_type username password "write" node_id (some v) ∧
    ((main env auth_type username password "write" node_id (some v)).all
        (fun e => !isServerWriteReq e)) = true := by
  have hconv : convResult (env.readDataType node_id) v =
      .error (.valueError ("Unsupported data type: " ++ vtName dt)) := by
    rw [hdt]
    simp [supported] at hs
    obtain ⟨⟨⟨⟨⟨⟨h1, h2⟩, h3⟩, h4⟩, h5⟩, h6⟩, h7⟩ := hs
    simp [convResult, h1, h2, h3, h4, h5, h6, h7]
  rw [main_eq_mainTry env auth_type username password "write" node_id (some v) ha,
    mainTry_conv_error env node_id v _ hc hconv]
  exact ⟨by simp, by simp [isServerWriteReq]⟩

/-- Claim C4, witness: the theorem at a node reporting `DateTime`. -/
theorem C4_witness :
    Event.logError
        ("Value conversion error: " ++ ("Unsupported data type: " ++ vtName .DateTime)) ∈
        main uEnv "anonymous" none none "write" "n" (some "5") ∧
    ((main uEnv "anonymous" none none "write" "n" (some "5")).all
        (fun e => !isServerWriteReq e)) = true :=
  C4_unsupported_type_never_writes uEnv "anonymous" none none "n" "5" .DateTime
    (Or.inl rfl) rfl rfl rfl

/-- Claim C5: for every invocation with auth type userpass where the
username or the password is empty or missing, the operation fails with the
configuration error before any connection attempt — the whole trace is the
single error log line. -/
theorem C5_userpass_missing_credentials (env : ServerEnv) (username password : Option String)
    (operation node_id : String) (value : Option String)
    (h : truthy username = false ∨ truthy password = false) :
    main env "userpass" username password operation node_id value =
      [Event.logError "Username and password must be provided for userpass authentication"] := by
  rcases h with h | h <;> simp [main, h]

/-- Claim C5, witness: the theorem at a concrete invocation with a
missing username. -/
theorem C5_witness :
    main cEnv "userpass" none (some "secret") "read" "n" none =
      [Event.logError "Username and password must be provided for userpass authentication"] :=
  C5_userpass_missing_credentials cEnv none (some "secret") "read" "n" none (Or.inl rfl)

/-- Claim C6: for a node whose reported data type is boolean, value
conversion parses the raw string as a base-10 integer and maps it to a
boolean — raw "1" converts to true, raw "0" converts to false, and any
other raw string that parses as an integer is accepted without error
(mapping to whether the integer is nonzero, Python `bool(int(value))`). -/
theorem C6_boolean_conversion (env : ServerEnv) (node_id : String)
    (hdt : env.readDataType node_id = .ok .Boolean) :
    (convert_value_to_node_type env node_id "1").2 = .ok (.bool true) ∧
    (convert_value_to_node_type env node_id "0").2 = .ok (.bool false) ∧
    ∀ s i, pyParseInt s = some i →
      (convert_value_to_node_type env node_id s).2 = .ok (.bool (i != 0)) := by
  refine ⟨?_, ?_, ?_⟩
  · simp only [convert_value_to_node_type, hdt]
    rfl
  · simp only [convert_value_to_node_type, hdt]
    rfl
  · intro s i hsi
    simp [convert_value_to_node_type, convResult, hdt, hsi]

/-- Claim C6, witness: the theorem on a boolean node at the raw inputs
"1", "0" and "7". -/
theorem C6_witness :
    (convert_value_to_node_type bEnv "n" "1").2 = .ok (.bool true) ∧
    (convert_value_to_node_type bEnv "n" "0").2 = .ok (.bool false) ∧
    (convert_value_to_node_type bEnv "n" "7").2 = .ok (.bool ((7 : Int) != 0)) :=
  ⟨(C6_boolean_conversion bEnv "n" rfl).1, (C6_boolean_conversion bEnv "n" rfl).2.1,
   (C6_boolean_conversion bEnv "n" rfl).2.2 "7" 7 (by decide)⟩

/-- Claim C7: for every write invocation where the raw string value cannot
be parsed into the node's reported numeric type (integer or floating
family), the operation fails with a conversion error and the write is
aborted — the server write operation is never called. -/
theorem C7_unparsable_numeric_never_writes (env : ServerEnv) (auth_type : String)
    (username password : Option String) (node_id v : String) (dt : VariantType)
    (ha : authOk auth_type username password) (hc : env.connectResult = .ok ())
    (hdt : env.readDataType node_id = .ok dt)
    (hcase : (intFamily dt = true ∧ pyParseInt v = none) ∨
             (floatFamily dt = true ∧ pyParseFloat v = none)) :
    convErrorLogged (main env auth_type username password "write" node_id (some v)) ∧
    ((main env auth_type username password "write" node_id (some v)).all
        (fun e => !isServerWriteReq e)) = true := by
  rcases hcase with ⟨hf, hpn⟩ | ⟨hf, hpn⟩
  · have hconv : convResult (env.readDataType node_id) v =
        .error (.valueError ("invalid literal for int with base 10: " ++ v)) := by
      rw [hdt]
      simp only [intFamily, Bool.or_eq_true, beq_iff_eq] at hf
      rcases hf with (rfl | rfl) | rfl <;> simp [convResult, hpn]
    rw [main_eq_mainTry env auth_type username password "write" node_id (some v) ha,
      mainTry_conv_error env node_id v _ hc hconv]
    exact ⟨⟨"invalid literal for int with base 10: " ++ v, by simp⟩,
      by simp [isServerWriteReq]⟩
  · have hconv : convResult (env.readDataType node_id) v =
        .error (.valueError ("could not convert string to float: " ++ v)) := by
      rw [hdt]
      simp only [floatFamily, Bool.or_eq_true, beq_iff_eq] at hf
      rcases hf with rfl | rfl <;> simp [convResult, hpn]
    rw [main_eq_mainTry env auth_type username password "write" node_id (some v) ha,
      mainTry_conv_error env node_id v _ hc hconv]
    exact ⟨⟨"could not convert string to float: " ++ v, by simp⟩,
      by simp [isServerWriteReq]⟩

/-- Claim C7, witness: the theorem at an integer node with the
non-numeric raw value "abc". -/
theorem C7_witness :
    convErrorLogged (main cEnv "anonymous" none none "write" "n" (some "abc")) ∧
    ((main cEnv "anonymous" none none "write" "n" (some "abc")).all
        (fun e => !isServerWriteReq e)) = true :=
  C7_unparsable_numeric_never_writes cEnv "anonymous" none none "n" "abc" .Int32
    (Or.inl rfl) rfl rfl (Or.inl ⟨rfl, by decide⟩)

/-- Claim C8: for every write invocation where conversion, the write
request, and the read-back all succeed, the node is immediately re-read
and the re-read value is compared to the converted value by equality —
if equal a success line is logged, if not equal only a warning is logged;
in both cases no error is raised and the invocation still runs to its
normal completion (disconnect and its log line close the trace). -/
theorem C8_write_readback_verification (env : ServerEnv) (auth_type : String)
    (username password : Option String) (node_id v : String) (cv nv : PyValue)
    (ha : authOk auth_type username password) (hc : env.connectResult = .ok ())
    (hconv : convResult (env.readDataType node_id) v = .ok cv)
    (hw : env.writeValue node_id cv = .ok ()) (hr : env.readValue node_id = .ok nv) :
    main env auth_type username password "write" node_id (some v) =
      [Event.connectAttempt, Event.logInfo "Connected to OPC UA server",
       Event.getNode node_id, Event.readDataTypeReq node_id,
       Event.logInfo ("Attempting to write value " ++ pyStr cv ++ " to node " ++ node_id),
       Event.writeValueReq node_id cv,
       Event.logInfo ("Updated value of node " ++ node_id ++ " to " ++ pyStr cv),
       Event.readValueReq node_id] ++
      (if pyEq nv cv then
        [Event.logInfo ("Verified: Value of node " ++ node_id ++ " is now " ++ pyStr nv)]
      else
        [Event.logWarning ("Verification failed: Expected " ++ pyStr cv ++
          ", but got " ++ pyStr nv)]) ++
      [Event.disconnect, Event.logInfo "Disconnected from OPC UA server"] := by
  rw [main_eq_mainTry env auth_type username password "write" node_id (some v) ha]
  cases hpq : pyEq nv cv <;>
    simp [mainTry, tryBody, writeInner, convert_value_to_node_type, hconv, hc, hw, hr, hpq,
      outerHandlerEvents]

/-- Claim C8, witness: the theorem at a concrete integer write whose
read-back returns the written value. -/
theorem C8_witness :
    main cEnv "anonymous" none none "write" "n" (some "42") =
      [Event.connectAttempt, Event.logInfo "Connected to OPC UA server",
       Event.getNode "n", Event.readDataTypeReq "n",
       Event.logInfo ("Attempting to write value " ++ pyStr (.int 42) ++ " to node " ++ "n"),
       Event.writeValueReq "n" (.int 42),
       Event.logInfo ("Updated value of node " ++ "n" ++ " to " ++ pyStr (.int 42)),
       Event.readValueReq "n"] ++
      (if pyEq (.int 42) (.int 42) then
        [Event.logInfo ("Verified: Value of node " ++ "n" ++ " is now " ++ pyStr (.int 42))]
      else
        [Event.logWarning ("Verification failed: Expected " ++ pyStr (.int 42) ++
          ", but got " ++ pyStr (.int 42))]) ++
      [Event.disconnect, Event.logInfo "Disconnected from OPC UA server"] :=
  C8_write_readback_verification cEnv "anonymous" none none "n" "42" (.int 42) (.int 42)
    (Or.inl rfl) rfl rfl rfl rfl

/-- Claim C10: for every read invocation (with valid credentials), every
node operation in the trace is the node fetch or the value read of the
requested node — the server write operation and the value-conversion
helper's data-type query never occur, so server node state is never
mutated. -/
theorem C10_read_never_mutates (env : ServerEnv) (auth_type : String)
    (username password : Option String) (node_id : String) (value : Option String)
    (ha : authOk auth_type username password) :
    ((main env auth_type username password "read" node_id value).all
        (fun e => !isServerWriteReq e && !isDataTypeReq e &&
          (!isNodeOp e || (e == Event.getNode node_id || e == Event.readValueReq node_id)))) =
      true := by
  rw [main_eq_mainTry env auth_type username password "read" node_id value ha]
  rcases hcc : env.connectResult with e | u
  · simp [mainTry, tryBody, hcc, outerHandlerEvents, isServerWriteReq, isDataTypeReq, isNodeOp]
  · rcases hv : env.readValue node_id with e | w <;>
      simp [mainTry, tryBody, hcc, hv, outerHandlerEvents, isServerWriteReq, isDataTypeReq,
        isNodeOp]

/-- Claim C10, witness: the theorem at a concrete anonymous read
invocation. -/
theorem C10_witness :
    ((main cEnv "anonymous" none none "read" "n" none).all
        (fun e => !isServerWriteReq e && !isDataTypeReq e &&
          (!isNodeOp e || (e == Event.getNode "n" || e == Event.readValueReq "n")))) = true :=
  C10_read_never_mutates cEnv "anonymous" none none "n" none (Or.inl rfl)

/-- Claim C9: for every hostname string, port integer, and path string,
the connection URL passed to the client is exactly the string
concatenation of "opc.tcp://", the hostname, ":", the decimal rendering
of the port, and the path. -/
theorem C9_url_is_concatenation (h : String) (p : Int) (pa : String) :
    opc_ua_server_url h p pa = urlSpec h p pa := by
  simp [opc_ua_server_url, urlSpec, String.append_assoc, toString, ToString.toString]

end OpcuaClient
